import Mathlib

/-!
Verification of `sale_advance_payment/wizard/sale_advance_payment_wzd.py`
(module `sale_advance_payment` of the `sale-workflow` repository).

The wizard `account.voucher.wizard` is a transient record that registers an
advance payment against a sale order.  We shallowly embed its data model and
its methods as pure Lean functions:

* monetary amounts are rationals (`ℚ`);
* dates are `Nat` day counts; an unset date is `none`;
* `Many2one` fields that are `required=True` in the source (`order_id`,
  `journal_id`) are plain fields, the optional ones are `Option`;
* Odoo's `float_compare` at `precision_digits=2` (round half away from zero,
  then compare) is defined explicitly;
* the framework's currency conversion `res.currency._convert` and
  `journal._get_available_payment_method_lines` are uninterpreted function
  parameters;
* record-store side effects of `make_advance_payment` are explicit state
  passing over an `Env` of sale orders and payments;
* the two exception classes the source imports (`odoo.exceptions.
  ValidationError` raised by the constraint, `odoo.exceptions.UserError`
  raised by `_prepare_payment_vals`) are the two constructors of `ErrClass`,
  and fallible methods return `Except Err _`.
-/

namespace SaleAdvancePayment

/-- A `res.currency` record (only its identity matters here). -/
structure Currency where
  id : Nat
deriving DecidableEq, Repr

/-- A `res.company` record; `currency_id` is a required field on companies. -/
structure Company where
  id : Nat
  currency_id : Currency
deriving DecidableEq, Repr

/-- An `account.journal` record: its own currency is optional
(`journal.currency_id` may be unset), its company is required. -/
structure Journal where
  id : Nat
  currency_id : Option Currency
  company_id : Company
deriving DecidableEq, Repr

/-- An `account.payment.method.line` record. -/
structure PaymentMethodLine where
  id : Nat
  code : String
deriving DecidableEq, Repr

/-- A `sale.order` record, restricted to the fields the wizard reads.
`pricelist_currency_id` stands for `sale.pricelist_id.currency_id` (absent
when the order has no pricelist); `partner_invoice_commercial_id` stands for
`sale.partner_invoice_id.commercial_partner_id.id`;
`account_payment_ids` is the set of linked payment ids. -/
structure SaleOrder where
  id : Nat
  name : String
  amount_total : ℚ
  amount_residual : ℚ
  currency_id : Currency
  pricelist_currency_id : Option Currency
  company_id : Company
  partner_invoice_commercial_id : Nat
  account_payment_ids : List Nat
deriving DecidableEq, Repr

/-- The `payment_type` selection field: `[("inbound", ...), ("outbound", ...)]`. -/
inductive PaymentType where
  | inbound
  | outbound
deriving DecidableEq, Repr

/-- The transient `account.voucher.wizard` record.
`order_id` and `journal_id` are `required=True` in the source, so they are
plain fields; `journal_currency_id` is the stored computed field (always a
real currency once computed, since the journal and its company's currency
are required); `currency_id` is populated by `default_get`;
`date` is optional here because `_compute_currency_amount` guards
`wzd.date or fields.Date.today()`; `payment_ref` is an optional Char. -/
structure AccountVoucherWizard where
  order_id : SaleOrder
  journal_id : Journal
  payment_method_line_id : Option PaymentMethodLine
  available_payment_method_line_ids : List PaymentMethodLine
  journal_currency_id : Currency
  currency_id : Currency
  amount_total : ℚ
  amount_advance : ℚ
  date : Option Nat
  currency_amount : ℚ
  payment_ref : Option String
  payment_type : PaymentType
deriving DecidableEq, Repr

/-- The evaluation context (`self.env.context`): `active_id` is truthy or
absent, `active_ids` is a (possibly empty) list of sale order ids. -/
structure Context where
  active_id : Option Nat
  active_ids : List Nat
deriving DecidableEq, Repr

/-- The two exception classes the source raises:
`odoo.exceptions.ValidationError` and `odoo.exceptions.UserError`. -/
inductive ErrClass where
  | validationError
  | userError
deriving DecidableEq, Repr

/-- A raised exception: its class and its message. -/
structure Err where
  cls : ErrClass
  msg : String
deriving DecidableEq, Repr

/-- Odoo `float_round(x, precision_digits=2)` scaled to an integer number of
cents: round half away from zero at 2 decimal digits. -/
def floatRound2 (x : ℚ) : ℤ :=
  if 0 ≤ x then ⌊x * 100 + 1 / 2⌋ else -⌊(-x) * 100 + 1 / 2⌋

/-- Odoo `float_compare(a, b, precision_digits=2)`: round both operands at 2
decimal digits and compare, yielding -1, 0 or 1. -/
def float_compare (a b : ℚ) : ℤ :=
  if floatRound2 a < floatRound2 b then -1
  else if floatRound2 a = floatRound2 b then 0
  else 1

/-- The constraint `check_amount` (`@api.constrains("amount_advance")`).
Mirrors the source: a non-positive advance always raises; the residual /
advanced-balance checks run only when the context carries an `active_id`;
for `payment_type == "inbound"` the converted amount is compared with the
order's residual, otherwise with
`paid_in_advanced = order_id.amount_total - self.amount_total`. -/
def check_amount (ctx : Context) (w : AccountVoucherWizard) : Except Err Unit :=
  if w.amount_advance ≤ 0 then
    .error ⟨.validationError, "Amount of advance must be positive."⟩
  else if ctx.active_id.isSome then
    match w.payment_type with
    | .inbound =>
      if float_compare w.currency_amount w.order_id.amount_residual > 0 then
        .error ⟨.validationError,
          "Inbound amount of advance is greater than residual amount on sale"⟩
      else
        .ok ()
    | .outbound =>
      let paid_in_advanced := w.order_id.amount_total - w.amount_total
      if float_compare w.currency_amount paid_in_advanced > 0 then
        .error ⟨.validationError,
          "Outbound amount of advance is greater than the advanced paid amount"⟩
      else
        .ok ()
  else
    .ok ()

/-- The dictionary of default values that `default_get` returns, restricted
to the keys this override touches; `superRes` fields it does not touch pass
through unchanged. -/
structure DefaultValues where
  order_id : Option Nat
  amount_total : Option ℚ
  currency_id : Option Currency
deriving DecidableEq, Repr

/-- The override `default_get`: starting from the parent's result
`superRes`, when `active_ids` is non-empty and `"amount_total"` is among the
requested fields, it sets `order_id` to the first active sale order,
`amount_total` to that order's residual, and `currency_id` to
`sale.pricelist_id.currency_id.id or sale.currency_id.id`. -/
def default_get (browse : Nat → SaleOrder) (superRes : DefaultValues)
    (ctx : Context) (fields_list : List String) : DefaultValues :=
  match ctx.active_ids with
  | [] => superRes
  | sale_id :: _ =>
    let sale := browse sale_id
    if "amount_total" ∈ fields_list then
      { superRes with
        order_id := some sale.id
        amount_total := some sale.amount_residual
        currency_id := some (sale.pricelist_currency_id.getD sale.currency_id) }
    else
      superRes

/-- The compute `_compute_currency_amount`: when the journal currency
differs from the wizard currency, convert `amount_advance` from the journal
currency to the wizard currency for the order's company at the wizard's date
(today when unset); otherwise pass `amount_advance` through.  `convert` is
the framework's `res.currency._convert(from_amount, to_currency, company,
date)` with the source currency as first argument. -/
def _compute_currency_amount
    (convert : Currency → ℚ → Currency → Company → Nat → ℚ)
    (today : Nat) (wzd : AccountVoucherWizard) : AccountVoucherWizard :=
  let amount_advance :=
    if wzd.journal_currency_id ≠ wzd.currency_id then
      convert wzd.journal_currency_id wzd.amount_advance wzd.currency_id
        wzd.order_id.company_id (wzd.date.getD today)
    else
      wzd.amount_advance
  { wzd with currency_amount := amount_advance }

/-- The compute `_compute_get_journal_currency`:
`journal_id.currency_id.id or journal_id.company_id.currency_id.id`. -/
def _compute_get_journal_currency (wzd : AccountVoucherWizard) :
    AccountVoucherWizard :=
  { wzd with journal_currency_id :=
      wzd.journal_id.currency_id.getD wzd.journal_id.company_id.currency_id }

/-- The hook `_get_payment_method_codes_to_exclude`, which returns `[]`. -/
def _get_payment_method_codes_to_exclude : List String := []

/-- The compute `_compute_payment_method_line_fields`: the available lines
are `journal_id._get_available_payment_method_lines(payment_type)`
(an uninterpreted framework service passed as `get_available`), filtered by
the excluded codes when that list is non-empty. -/
def _compute_payment_method_line_fields
    (get_available : Journal → PaymentType → List PaymentMethodLine)
    (pay : AccountVoucherWizard) : AccountVoucherWizard :=
  let avail := get_available pay.journal_id pay.payment_type
  let to_exclude := _get_payment_method_codes_to_exclude
  let avail :=
    if to_exclude ≠ [] then
      avail.filter (fun line => line.code ∉ to_exclude)
    else
      avail
  { pay with available_payment_method_line_ids := avail }

/-- The compute `_compute_payment_method_line_id`: keep the current
selection when it is among the available lines, otherwise select the first
available line, otherwise clear the selection (`False`). -/
def _compute_payment_method_line_id (pay : AccountVoucherWizard) :
    AccountVoucherWizard :=
  let available_payment_method_lines := pay.available_payment_method_line_ids
  if (match pay.payment_method_line_id with
      | some c => decide (c ∈ available_payment_method_lines)
      | none => false : Bool) then
    pay
  else
    match available_payment_method_lines with
    | first :: _ => { pay with payment_method_line_id := some first }
    | [] => { pay with payment_method_line_id := none }

/-- Python `self.payment_ref or sale.name`: an unset or empty Char field is
falsy, so the sale name is used in its place. -/
def charOr (a : Option String) (b : String) : String :=
  match a with
  | some s => if s = "" then b else s
  | none => b

/-- The values dictionary built by `_prepare_payment_vals` for
`account.payment.create`. -/
structure PaymentVals where
  date : Option Nat
  amount : ℚ
  payment_type : PaymentType
  partner_type : String
  ref : String
  journal_id : Nat
  currency_id : Nat
  partner_id : Nat
  payment_method_line_id : Option Nat
deriving DecidableEq, Repr

/-- The method `_prepare_payment_vals`: raises a `UserError` when
`amount_advance < 0.0`, otherwise builds the payment values from the wizard
and the sale (partner from the sale's invoice address's commercial partner,
reference defaulting to the sale name, currency the journal currency). -/
def _prepare_payment_vals (w : AccountVoucherWizard) (sale : SaleOrder) :
    Except Err PaymentVals :=
  let partner_id := sale.partner_invoice_commercial_id
  if w.amount_advance < 0 then
    .error ⟨.userError,
      "The amount to advance must always be positive. Please use the payment type to indicate if this is an inbound or an outbound payment."⟩
  else
    .ok
      { date := w.date
        amount := w.amount_advance
        payment_type := w.payment_type
        partner_type := "customer"
        ref := charOr w.payment_ref sale.name
        journal_id := w.journal_id.id
        currency_id := w.journal_currency_id.id
        partner_id := partner_id
        payment_method_line_id := w.payment_method_line_id.map (fun l => l.id) }

/-- An `account.payment` record in the store: its id, the values it was
created from, and whether it has been posted. -/
structure Payment where
  id : Nat
  vals : PaymentVals
  posted : Bool
deriving DecidableEq, Repr

/-- The UI action dictionary a wizard button returns. -/
structure Action where
  type : String
deriving DecidableEq, Repr

/-- The record store `make_advance_payment` acts on: the sale orders (by
id), the payments created so far, and the next fresh payment id. -/
structure Env where
  sales : Nat → SaleOrder
  payments : List Payment
  next_payment_id : Nat

/-- `sale.account_payment_ids |= payment`: set union on the linked ids. -/
def unionAdd (l : List Nat) (x : Nat) : List Nat :=
  if x ∈ l then l else l ++ [x]

/-- `payment.action_post()`: mark the payment with the given id posted. -/
def action_post (payments : List Payment) (pid : Nat) : List Payment :=
  payments.map (fun p => if p.id = pid then { p with posted := true } else p)

/-- The button `make_advance_payment`: with a non-empty `active_ids`, browse
the first active sale, build the payment values, create the payment, link it
to the sale's payments and post it; in every case return the window-close
action `{"type": "ir.actions.act_window_close"}`.  With empty `active_ids`
the store is untouched. -/
def make_advance_payment (env : Env) (ctx : Context)
    (w : AccountVoucherWizard) : Except Err (Env × Action) :=
  match ctx.active_ids with
  | [] => .ok (env, { type := "ir.actions.act_window_close" })
  | sale_id :: _ =>
    let sale := env.sales sale_id
    match _prepare_payment_vals w sale with
    | .error e => .error e
    | .ok payment_vals =>
      let payment : Payment :=
        { id := env.next_payment_id, vals := payment_vals, posted := false }
      let env1 : Env :=
        { env with
          payments := env.payments ++ [payment]
          next_payment_id := env.next_payment_id + 1 }
      let sale1 :=
        { sale with account_payment_ids := unionAdd sale.account_payment_ids payment.id }
      let env2 : Env :=
        { env1 with sales := fun j => if j = sale_id then sale1 else env1.sales j }
      let env3 : Env :=
        { env2 with payments := action_post env2.payments payment.id }
      .ok (env3, { type := "ir.actions.act_window_close" })

/-! ### Concrete sample records, used by witnesses and counterexamples -/

/-- A sample currency. -/
def eur : Currency := ⟨1⟩

/-- Another sample currency. -/
def usd : Currency := ⟨2⟩

/-- A sample company whose currency is `eur`. -/
def acme : Company := ⟨1, eur⟩

/-- A sample bank journal with its own currency set. -/
def bankJournal : Journal := ⟨10, some eur, acme⟩

/-- A sample journal with no currency of its own. -/
def plainJournal : Journal := ⟨12, none, acme⟩

/-- A sample sale order: total 1000, residual 400, pricelist in `eur`. -/
def order1 : SaleOrder :=
  ⟨100, "SO100", 1000, 400, eur, some eur, acme, 7, []⟩

/-- A sample wizard over `order1`: inbound advance of 100 in `eur`. -/
def baseWizard : AccountVoucherWizard :=
  { order_id := order1
    journal_id := bankJournal
    payment_method_line_id := none
    available_payment_method_line_ids := []
    journal_currency_id := eur
    currency_id := eur
    amount_total := 400
    amount_advance := 100
    date := some 20260101
    currency_amount := 100
    payment_ref := none
    payment_type := .inbound }

/-- A context carrying no `active_id` and no `active_ids`, as for a save
performed outside the sale-order action. -/
def ctxNoActive : Context := ⟨none, []⟩

/-- The context the sale-order action provides: `active_id` and
`active_ids` name `order1`. -/
def ctxActive : Context := ⟨some 100, [100]⟩

/-! ### C1 -/

/-- An inbound wizard whose converted amount (500) exceeds the order
residual (400). -/
def wizC1 : AccountVoucherWizard :=
  { baseWizard with amount_advance := 500, currency_amount := 500 }

/-- C1, counterexample: the claim says every inbound wizard whose converted
amount exceeds the order residual raises a validation error on save, but
`check_amount` runs the residual check only when the context carries an
`active_id`: here the converted amount 500 exceeds the residual 400 at 2
digits, the advance is positive and inbound, yet saving under a context
without `active_id` raises nothing. -/
theorem C1_counterexample :
    wizC1.payment_type = PaymentType.inbound ∧
    0 < wizC1.amount_advance ∧
    float_compare wizC1.currency_amount wizC1.order_id.amount_residual > 0 ∧
    check_amount ctxNoActive wizC1 = Except.ok () := by
  refine ⟨rfl, by norm_num [wizC1, baseWizard], ?_, rfl⟩
  norm_num [wizC1, baseWizard, order1, float_compare, floatRound2]

/-- C1, amended: for every wizard with payment type inbound, when the
context carries an `active_id`, a converted amount exceeding the order
residual at 2 decimal digits makes `check_amount` raise a validation error;
and whenever the advance is positive and the converted amount does not
exceed the residual, `check_amount` raises no error. -/
theorem C1_inbound_residual_check (ctx : Context) (w : AccountVoucherWizard)
    (hin : w.payment_type = PaymentType.inbound) :
    (ctx.active_id.isSome →
      float_compare w.currency_amount w.order_id.amount_residual > 0 →
      ∃ e, check_amount ctx w = Except.error e ∧
        e.cls = ErrClass.validationError) ∧
    (0 < w.amount_advance →
      float_compare w.currency_amount w.order_id.amount_residual ≤ 0 →
      check_amount ctx w = Except.ok ()) := by
  constructor
  · intro hact hgt
    by_cases hle : w.amount_advance ≤ 0
    · exact ⟨⟨.validationError, "Amount of advance must be positive."⟩,
        by simp [check_amount, hle], rfl⟩
    · exact ⟨⟨.validationError,
        "Inbound amount of advance is greater than residual amount on sale"⟩,
        by simp [check_amount, hle, hact, hin, hgt], rfl⟩
  · intro hpos hle2
    have hnle : ¬ w.amount_advance ≤ 0 := not_le.mpr hpos
    by_cases hact : ctx.active_id.isSome
    · simp [check_amount, hnle, hact, hin, not_lt.mpr hle2]
    · simp [check_amount, hnle, hact]

/-- C1, witness: under the sale-order context, the amended theorem applied
to `wizC1` yields the validation error. -/
theorem C1_witness :
    wizC1.payment_type = PaymentType.inbound ∧
    ctxActive.active_id.isSome = true ∧
    float_compare wizC1.currency_amount wizC1.order_id.amount_residual > 0 ∧
    ∃ e, check_amount ctxActive wizC1 = Except.error e ∧
      e.cls = ErrClass.validationError :=
  ⟨rfl, rfl,
    by norm_num [wizC1, baseWizard, order1, float_compare, floatRound2],
    (C1_inbound_residual_check ctxActive wizC1 rfl).1 rfl
      (by norm_num [wizC1, baseWizard, order1, float_compare, floatRound2])⟩

/-! ### C2 -/

/-- An outbound wizard over `order1` whose converted amount (700) exceeds
`order total − wizard amount_total = 1000 − 400 = 600`. -/
def wizC2 : AccountVoucherWizard :=
  { baseWizard with
    payment_type := .outbound
    amount_advance := 700
    currency_amount := 700 }

/-- C2, counterexample: the claim says every outbound wizard whose
converted amount exceeds the previously-advanced balance raises a
validation error on save, but `check_amount` runs that check only when the
context carries an `active_id`: here 700 exceeds 1000 − 400 = 600 at 2
digits (the wizard's `amount_total` holds the order residual 400), the
advance is positive and outbound, yet saving under a context without
`active_id` raises nothing. -/
theorem C2_counterexample :
    wizC2.payment_type = PaymentType.outbound ∧
    wizC2.amount_total = wizC2.order_id.amount_residual ∧
    0 < wizC2.amount_advance ∧
    float_compare wizC2.currency_amount
      (wizC2.order_id.amount_total - wizC2.order_id.amount_residual) > 0 ∧
    check_amount ctxNoActive wizC2 = Except.ok () := by
  refine ⟨rfl, rfl, by norm_num [wizC2, baseWizard], ?_, rfl⟩
  norm_num [wizC2, baseWizard, order1, float_compare, floatRound2]

/-- C2, amended: for every wizard with payment type outbound whose
`amount_total` holds the order's current residual (as `default_get`
populates it), when the context carries an `active_id`, a converted amount
exceeding order total − residual at 2 decimal digits makes `check_amount`
raise a validation error; and whenever the advance is positive and the
converted amount does not exceed that balance, `check_amount` raises no
error. -/
theorem C2_outbound_advanced_check (ctx : Context) (w : AccountVoucherWizard)
    (hout : w.payment_type = PaymentType.outbound)
    (hres : w.amount_total = w.order_id.amount_residual) :
    (ctx.active_id.isSome →
      float_compare w.currency_amount
        (w.order_id.amount_total - w.order_id.amount_residual) > 0 →
      ∃ e, check_amount ctx w = Except.error e ∧
        e.cls = ErrClass.validationError) ∧
    (0 < w.amount_advance →
      float_compare w.currency_amount
        (w.order_id.amount_total - w.order_id.amount_residual) ≤ 0 →
      check_amount ctx w = Except.ok ()) := by
  constructor
  · intro hact hgt
    by_cases hle : w.amount_advance ≤ 0
    · exact ⟨⟨.validationError, "Amount of advance must be positive."⟩,
        by simp [check_amount, hle], rfl⟩
    · exact ⟨⟨.validationError,
        "Outbound amount of advance is greater than the advanced paid amount"⟩,
        by simp [check_amount, hle, hact, hout, hres, hgt], rfl⟩
  · intro hpos hle2
    have hnle : ¬ w.amount_advance ≤ 0 := not_le.mpr hpos
    by_cases hact : ctx.active_id.isSome
    · simp [check_amount, hnle, hact, hout, hres, not_lt.mpr hle2]
    · simp [check_amount, hnle, hact]

/-- C2, witness: under the sale-order context, the amended theorem applied
to `wizC2` yields the validation error. -/
theorem C2_witness :
    wizC2.payment_type = PaymentType.outbound ∧
    wizC2.amount_total = wizC2.order_id.amount_residual ∧
    ctxActive.active_id.isSome = true ∧
    float_compare wizC2.currency_amount
      (wizC2.order_id.amount_total - wizC2.order_id.amount_residual) > 0 ∧
    ∃ e, check_amount ctxActive wizC2 = Except.error e ∧
      e.cls = ErrClass.validationError :=
  ⟨rfl, rfl, rfl,
    by norm_num [wizC2, baseWizard, order1, float_compare, floatRound2],
    (C2_outbound_advanced_check ctxActive wizC2 rfl rfl).1 rfl
      (by norm_num [wizC2, baseWizard, order1, float_compare, floatRound2])⟩

/-! ### C3 -/

/-- C3: for every context and wizard, a non-positive `amount_advance` makes
`check_amount` raise a validation error, regardless of payment direction or
context; and `check_amount` succeeds only when `amount_advance` is
positive. -/
theorem C3_positive_amount_required (ctx : Context)
    (w : AccountVoucherWizard) :
    (w.amount_advance ≤ 0 →
      ∃ e, check_amount ctx w = Except.error e ∧
        e.cls = ErrClass.validationError) ∧
    (check_amount ctx w = Except.ok () → 0 < w.amount_advance) := by
  constructor
  · intro h
    exact ⟨⟨.validationError, "Amount of advance must be positive."⟩,
      by simp [check_amount, h], rfl⟩
  · intro h
    by_contra hneg
    have hle : w.amount_advance ≤ 0 := not_lt.mp hneg
    simp [check_amount, hle] at h

/-- A wizard with a zero advance, rejected by the positivity constraint. -/
def wizC3 : AccountVoucherWizard := { baseWizard with amount_advance := 0 }

/-- C3, witness: the theorem applied to the zero-advance wizard under a
context without `active_id` yields the validation error. -/
theorem C3_witness :
    wizC3.amount_advance ≤ 0 ∧
    ∃ e, check_amount ctxNoActive wizC3 = Except.error e ∧
      e.cls = ErrClass.validationError :=
  ⟨by norm_num [wizC3, baseWizard],
    (C3_positive_amount_required ctxNoActive wizC3).1
      (by norm_num [wizC3, baseWizard])⟩

/-! ### C4 -/

/-- A wizard with a negative advance, as fed to `_prepare_payment_vals`. -/
def wizC4 : AccountVoucherWizard := { baseWizard with amount_advance := -1 }

/-- C4, counterexample: not every amount-related error the module raises is
of the single validation-error class: `_prepare_payment_vals` raises a
`UserError` (the distinct parent class, not a `ValidationError`) when the
advance is negative. -/
theorem C4_counterexample :
    (∃ e, _prepare_payment_vals wizC4 order1 = Except.error e ∧
      e.cls = ErrClass.userError) ∧
    ErrClass.userError ≠ ErrClass.validationError := by
  refine ⟨⟨⟨ErrClass.userError,
    "The amount to advance must always be positive. Please use the payment type to indicate if this is an inbound or an outbound payment."⟩,
    ?_, rfl⟩, by decide⟩
  have hneg : wizC4.amount_advance < 0 := by norm_num [wizC4, baseWizard]
  simp [_prepare_payment_vals, hneg]

/-- C4, amended: the save-time constraint `check_amount` raises only the
single class `ValidationError` for amount-related errors (non-positive, or
exceeding the applicable residual or advanced balance), while
`_prepare_payment_vals` raises its amount-related error (negative advance)
with the distinct class `UserError`. -/
theorem C4_error_classes (ctx : Context) (w : AccountVoucherWizard)
    (sale : SaleOrder) (e1 e2 : Err) :
    (check_amount ctx w = Except.error e1 →
      e1.cls = ErrClass.validationError) ∧
    (_prepare_payment_vals w sale = Except.error e2 →
      e2.cls = ErrClass.userError) := by
  constructor
  · intro h
    by_cases hle : w.amount_advance ≤ 0
    · have hval : check_amount ctx w = Except.error
          ⟨ErrClass.validationError, "Amount of advance must be positive."⟩ := by
        simp [check_amount, hle]
      rw [hval] at h
      cases h
      rfl
    · by_cases hact : ctx.active_id.isSome
      · cases hpt : w.payment_type
        · by_cases hfc :
            float_compare w.currency_amount w.order_id.amount_residual > 0
          · have hval : check_amount ctx w = Except.error
                ⟨ErrClass.validationError,
                  "Inbound amount of advance is greater than residual amount on sale"⟩ := by
              simp [check_amount, hle, hact, hpt, hfc]
            rw [hval] at h
            cases h
            rfl
          · have hval : check_amount ctx w = Except.ok () := by
              simp [check_amount, hle, hact, hpt, hfc]
            rw [hval] at h
            cases h
        · by_cases hfc :
            float_compare w.currency_amount
              (w.order_id.amount_total - w.amount_total) > 0
          · have hval : check_amount ctx w = Except.error
                ⟨ErrClass.validationError,
                  "Outbound amount of advance is greater than the advanced paid amount"⟩ := by
              simp [check_amount, hle, hact, hpt, hfc]
            rw [hval] at h
            cases h
            rfl
          · have hval : check_amount ctx w = Except.ok () := by
              simp [check_amount, hle, hact, hpt, hfc]
            rw [hval] at h
            cases h
      · have hval : check_amount ctx w = Except.ok () := by
          simp [check_amount, hle, hact]
        rw [hval] at h
        cases h
  · intro h
    by_cases hneg : w.amount_advance < 0
    · have hval : _prepare_payment_vals w sale = Except.error
          ⟨ErrClass.userError,
            "The amount to advance must always be positive. Please use the payment type to indicate if this is an inbound or an outbound payment."⟩ := by
        simp [_prepare_payment_vals, hneg]
      rw [hval] at h
      cases h
      rfl
    · have hval : _prepare_payment_vals w sale = Except.ok
          { date := w.date
            amount := w.amount_advance
            payment_type := w.payment_type
            partner_type := "customer"
            ref := charOr w.payment_ref sale.name
            journal_id := w.journal_id.id
            currency_id := w.journal_currency_id.id
            partner_id := sale.partner_invoice_commercial_id
            payment_method_line_id := w.payment_method_line_id.map (fun l => l.id) } := by
        simp [_prepare_payment_vals, hneg]
      rw [hval] at h
      cases h

/-- C4, witness: both branches of the amended theorem applied to concrete
inputs: `check_amount` on the zero-advance wizard yields the
`ValidationError` class, and `_prepare_payment_vals` on the
negative-advance wizard yields the `UserError` class. -/
theorem C4_witness :
    Err.cls ⟨ErrClass.validationError,
      "Amount of advance must be positive."⟩ = ErrClass.validationError ∧
    Err.cls ⟨ErrClass.userError,
      "The amount to advance must always be positive. Please use the payment type to indicate if this is an inbound or an outbound payment."⟩ =
      ErrClass.userError :=
  ⟨(C4_error_classes ctxNoActive wizC3 order1
      ⟨ErrClass.validationError, "Amount of advance must be positive."⟩
      ⟨ErrClass.userError,
        "The amount to advance must always be positive. Please use the payment type to indicate if this is an inbound or an outbound payment."⟩).1
      rfl,
   (C4_error_classes ctxNoActive wizC4 order1
      ⟨ErrClass.validationError, "Amount of advance must be positive."⟩
      ⟨ErrClass.userError,
        "The amount to advance must always be positive. Please use the payment type to indicate if this is an inbound or an outbound payment."⟩).2
      rfl⟩

/-! ### C5 -/

/-- Posting a freshly appended payment marks exactly that payment posted
and leaves payments with other ids unchanged. -/
theorem action_post_append_fresh (ps : List Payment) (p : Payment)
    (h : ∀ q ∈ ps, q.id ≠ p.id) :
    action_post (ps ++ [p]) p.id = ps ++ [{ p with posted := true }] := by
  unfold action_post
  rw [List.map_append]
  congr 1
  · conv_rhs => rw [show ps = ps.map id from (List.map_id ps).symm]
    exact List.map_congr_left fun q hq => by simp [h q hq]
  · simp

/-- C5: with a non-empty `active_ids`, `make_advance_payment` on a wizard
whose advance is non-negative (as every saved wizard record is, by the
`check_amount` constraint) creates exactly one payment built by
`_prepare_payment_vals` (date, advance amount, payment type, customer
partner type, reference defaulting to the sale name, journal, journal
currency, the commercial partner of the sale's invoice address, the
selected payment method line), links it to the first active sale order's
payments, posts it, and returns the window-close action.  `hfresh` is the
store invariant that the fresh payment id is unused. -/
theorem C5_make_advance_payment_creates_and_posts (env : Env) (ctx : Context)
    (w : AccountVoucherWizard) (sale_id : Nat) (rest : List Nat)
    (hids : ctx.active_ids = sale_id :: rest)
    (hpos : 0 ≤ w.amount_advance)
    (hfresh : ∀ p ∈ env.payments, p.id ≠ env.next_payment_id) :
    ∃ env2 : Env,
      make_advance_payment env ctx w =
        Except.ok (env2, { type := "ir.actions.act_window_close" }) ∧
      env2.payments = env.payments ++
        [{ id := env.next_payment_id
           vals :=
             { date := w.date
               amount := w.amount_advance
               payment_type := w.payment_type
               partner_type := "customer"
               ref := charOr w.payment_ref (env.sales sale_id).name
               journal_id := w.journal_id.id
               currency_id := w.journal_currency_id.id
               partner_id := (env.sales sale_id).partner_invoice_commercial_id
               payment_method_line_id := w.payment_method_line_id.map (fun l => l.id) }
           posted := true }] ∧
      (env2.sales sale_id).account_payment_ids =
        unionAdd (env.sales sale_id).account_payment_ids env.next_payment_id ∧
      (∀ j, j ≠ sale_id → env2.sales j = env.sales j) := by
  have hnneg : ¬ w.amount_advance < 0 := not_lt.mpr hpos
  unfold make_advance_payment _prepare_payment_vals
  rw [hids]
  simp only [if_neg hnneg]
  refine ⟨_, rfl, ?_, ?_, ?_⟩
  · exact action_post_append_fresh env.payments
      { id := env.next_payment_id
        vals :=
          { date := w.date
            amount := w.amount_advance
            payment_type := w.payment_type
            partner_type := "customer"
            ref := charOr w.payment_ref (env.sales sale_id).name
            journal_id := w.journal_id.id
            currency_id := w.journal_currency_id.id
            partner_id := (env.sales sale_id).partner_invoice_commercial_id
            payment_method_line_id := w.payment_method_line_id.map (fun l => l.id) }
        posted := false }
      hfresh
  · simp
  · intro j hj
    simp [hj]

/-- The record store used by the witnesses: one sale order (`order1` at
every id), no payments yet, next payment id 1. -/
def env0 : Env :=
  { sales := fun _ => order1, payments := [], next_payment_id := 1 }

/-- C5, witness: the theorem applied to the sample store, the sale-order
context and the base wizard. -/
theorem C5_witness :
    ∃ env2 : Env,
      make_advance_payment env0 ctxActive baseWizard =
        Except.ok (env2, { type := "ir.actions.act_window_close" }) ∧
      env2.payments = env0.payments ++
        [{ id := env0.next_payment_id
           vals :=
             { date := baseWizard.date
               amount := baseWizard.amount_advance
               payment_type := baseWizard.payment_type
               partner_type := "customer"
               ref := charOr baseWizard.payment_ref (env0.sales 100).name
               journal_id := baseWizard.journal_id.id
               currency_id := baseWizard.journal_currency_id.id
               partner_id := (env0.sales 100).partner_invoice_commercial_id
               payment_method_line_id :=
                 baseWizard.payment_method_line_id.map (fun l => l.id) }
           posted := true }] ∧
      (env2.sales 100).account_payment_ids =
        unionAdd (env0.sales 100).account_payment_ids env0.next_payment_id ∧
      (∀ j, j ≠ 100 → env2.sales j = env0.sales j) :=
  C5_make_advance_payment_creates_and_posts env0 ctxActive baseWizard 100 []
    rfl (by norm_num [baseWizard]) (fun p hp => by simp [env0] at hp)

/-! ### C6 -/

/-- C6: with an empty `active_ids` context, `default_get` returns exactly
the parent's defaults; with a non-empty `active_ids` context and
`"amount_total"` in the requested field list, it sets `order_id` to the
first active sale order, `amount_total` to that order's residual, and
`currency_id` to the order's pricelist currency when set, otherwise the
order's own currency. -/
theorem C6_default_get_defaults (browse : Nat → SaleOrder)
    (superRes : DefaultValues) (ctx : Context) (fields_list : List String) :
    (ctx.active_ids = [] →
      default_get browse superRes ctx fields_list = superRes) ∧
    (∀ s rest, ctx.active_ids = s :: rest →
      "amount_total" ∈ fields_list →
      default_get browse superRes ctx fields_list =
        { superRes with
          order_id := some (browse s).id
          amount_total := some (browse s).amount_residual
          currency_id :=
            some ((browse s).pricelist_currency_id.getD (browse s).currency_id) }) := by
  constructor
  · intro h
    unfold default_get
    rw [h]
  · intro s rest h hf
    unfold default_get
    rw [h]
    simp [hf]

/-- The parent defaults used by the C6 witness: nothing pre-filled. -/
def superRes0 : DefaultValues := ⟨none, none, none⟩

/-- C6, witness: the theorem applied to a concrete browse function, the
sale-order context and the field list `["amount_total"]`: the defaults are
populated from `order1`; and applied to the empty context the parent's
defaults come back unchanged. -/
theorem C6_witness :
    (default_get (fun _ => order1) superRes0 ctxNoActive ["amount_total"] =
      superRes0) ∧
    (default_get (fun _ => order1) superRes0 ctxActive ["amount_total"] =
      { superRes0 with
        order_id := some order1.id
        amount_total := some order1.amount_residual
        currency_id :=
          some (order1.pricelist_currency_id.getD order1.currency_id) }) :=
  ⟨(C6_default_get_defaults (fun _ => order1) superRes0 ctxNoActive
      ["amount_total"]).1 rfl,
   (C6_default_get_defaults (fun _ => order1) superRes0 ctxActive
      ["amount_total"]).2 100 [] rfl (by simp)⟩

/-! ### C7 -/

/-- C7: the computed `currency_amount` is `amount_advance` unchanged when
the journal currency equals the wizard currency, and otherwise is the
framework conversion of `amount_advance` from the journal currency to the
wizard currency for the order's company at the wizard's date, today when
the date is unset. -/
theorem C7_currency_amount_passthrough
    (convert : Currency → ℚ → Currency → Company → Nat → ℚ)
    (today : Nat) (wzd : AccountVoucherWizard) :
    (_compute_currency_amount convert today wzd).currency_amount =
      if wzd.journal_currency_id = wzd.currency_id then
        wzd.amount_advance
      else
        convert wzd.journal_currency_id wzd.amount_advance wzd.currency_id
          wzd.order_id.company_id (wzd.date.getD today) := by
  unfold _compute_currency_amount
  by_cases h : wzd.journal_currency_id = wzd.currency_id <;> simp [h]

/-! ### C8 -/

/-- C8: recomputing `payment_method_line_id` keeps the current selection
when it is among the available lines, otherwise picks the first available
line, otherwise clears the selection; hence the recomputed selection is
empty or a member of the available lines. -/
theorem C8_payment_method_line_selection (pay : AccountVoucherWizard) :
    ((∃ c, pay.payment_method_line_id = some c ∧
        c ∈ pay.available_payment_method_line_ids) →
      (_compute_payment_method_line_id pay).payment_method_line_id =
        pay.payment_method_line_id) ∧
    (¬ (∃ c, pay.payment_method_line_id = some c ∧
        c ∈ pay.available_payment_method_line_ids) →
      ∀ first rest, pay.available_payment_method_line_ids = first :: rest →
        (_compute_payment_method_line_id pay).payment_method_line_id =
          some first) ∧
    (pay.available_payment_method_line_ids = [] →
      (_compute_payment_method_line_id pay).payment_method_line_id = none) ∧
    ((_compute_payment_method_line_id pay).payment_method_line_id = none ∨
      ∃ c, (_compute_payment_method_line_id pay).payment_method_line_id =
          some c ∧ c ∈ pay.available_payment_method_line_ids) := by
  unfold _compute_payment_method_line_id
  refine ⟨?_, ?_, ?_, ?_⟩
  · rintro ⟨c, hc, hmem⟩
    rw [hc]
    simp [hmem]
    exact hc
  · intro hnone first rest hav
    rw [hav]
    rcases hsel : pay.payment_method_line_id with _ | c
    · simp
    · have hmem : c ∉ pay.available_payment_method_line_ids := by
        intro hm
        exact hnone ⟨c, hsel, hm⟩
      rw [hav] at hmem
      simp [hmem]
  · intro hav
    rw [hav]
    rcases hsel : pay.payment_method_line_id with _ | c <;> simp
  · rcases hsel : pay.payment_method_line_id with _ | c
    · rcases hav : pay.available_payment_method_line_ids with _ | ⟨first, rest⟩
      · simp
      · right
        exact ⟨first, by simp, by simp⟩
    · by_cases hmem : c ∈ pay.available_payment_method_line_ids
      · right
        refine ⟨c, ?_, hmem⟩
        simp [hmem, hsel]
      · rcases hav : pay.available_payment_method_line_ids with _ | ⟨first, rest⟩
        · simp [hmem]
        · right
          rw [hav] at hmem
          exact ⟨first, by simp [hmem], by simp⟩

/-- Two sample payment method lines. -/
def pml1 : PaymentMethodLine := ⟨1, "manual"⟩

/-- Another sample payment method line, not among the available ones in the
C8 witness. -/
def pml2 : PaymentMethodLine := ⟨2, "check"⟩

/-- A wizard whose current payment method line is not available: the
recompute must fall back to the first available line. -/
def payC8 : AccountVoucherWizard :=
  { baseWizard with
    payment_method_line_id := some pml2
    available_payment_method_line_ids := [pml1] }

/-- C8, witness: for the selection `pml2` outside the available list
`[pml1]`, the recompute picks the first available line `pml1`. -/
theorem C8_witness :
    (_compute_payment_method_line_id payC8).payment_method_line_id =
      some pml1 :=
  (C8_payment_method_line_selection payC8).2.1
    (by
      rintro ⟨c, hc, hmem⟩
      rw [show payC8.payment_method_line_id = some pml2 from rfl] at hc
      cases hc
      revert hmem
      decide)
    pml1 [] rfl

/-! ### C9 -/

/-- C9: with an empty `active_ids` context, `make_advance_payment` leaves
the record store untouched — no payment is created or posted and every sale
order is unchanged — and still returns the window-close action. -/
theorem C9_empty_context_no_effect (env : Env) (ctx : Context)
    (w : AccountVoucherWizard) (h : ctx.active_ids = []) :
    make_advance_payment env ctx w =
      Except.ok (env, { type := "ir.actions.act_window_close" }) := by
  unfold make_advance_payment
  rw [h]

/-- C9, witness: the theorem applied to the sample store and the context
without active ids. -/
theorem C9_witness :
    ctxNoActive.active_ids = [] ∧
    make_advance_payment env0 ctxNoActive baseWizard =
      Except.ok (env0, { type := "ir.actions.act_window_close" }) :=
  ⟨rfl, C9_empty_context_no_effect env0 ctxNoActive baseWizard rfl⟩

/-! ### C10 -/

/-- C10: the computed `journal_currency_id` is the journal's own currency
when the journal has one, and otherwise the currency of the journal's
company; since `journal_id` is a required field and a company's currency is
always set, the result is a currency (not an unset value) whenever a
journal is selected. -/
theorem C10_journal_currency_fallback (wzd : AccountVoucherWizard) :
    (_compute_get_journal_currency wzd).journal_currency_id =
      match wzd.journal_id.currency_id with
      | some c => c
      | none => wzd.journal_id.company_id.currency_id := by
  unfold _compute_get_journal_currency
  rcases h : wzd.journal_id.currency_id with _ | c <;> simp [h]

end SaleAdvancePayment
